import Mathlib

/-!
Verification of the clue-extraction and batch-scraping logic of
`scraper.py` (JeopardyAnalysis). The Python functions are shallowly
embedded: HTML access is modelled by explicit record types, Python
exceptions by `Option`/error results, and the batch runner by the trace
of observable events it performs.
-/

namespace Scraper

/-! ### Python-semantics helpers -/

/-- Python substring test: the semantics of the expression `sub in s`. -/
def pyContains (s sub : String) : Bool :=
  (List.range (s.toList.length + 1)).any fun i => sub.toList.isPrefixOf (s.toList.drop i)

/-- Value of a nonempty all-digit character list, `none` otherwise. -/
def digitsVal (cs : List Char) : Option Nat :=
  if cs.isEmpty then none
  else cs.foldl
    (fun acc c => acc.bind fun n => if c.isDigit then some (10 * n + (c.toNat - 48)) else none)
    (some 0)

/-- Python `int(s)`: strip whitespace, optional sign, then a nonempty digit
string; `none` models the `ValueError` raised otherwise. -/
def pyInt (s : String) : Option Int :=
  match (s.toList.dropWhile Char.isWhitespace).reverse.dropWhile Char.isWhitespace |>.reverse with
  | '-' :: rest => (digitsVal rest).map fun n => -(n : Int)
  | '+' :: rest => (digitsVal rest).map fun n => (n : Int)
  | t => (digitsVal t).map fun n => (n : Int)

/-- Python list indexing `l[i]` with negative-index wraparound;
`none` models `IndexError`. -/
def pyGet (l : List α) (i : Int) : Option α :=
  if 0 ≤ i then l.get? i.toNat
  else if (-i).toNat ≤ l.length then l.get? (l.length - (-i).toNat)
  else none

/-- Python slice `s[-2:]`: the last two characters (the whole string when
shorter). -/
def pyLastTwo (s : String) : String :=
  String.mk (s.toList.drop (s.toList.length - 2))

/-- Python `s.strip()`: drop leading and trailing whitespace. -/
def pyStrip (s : String) : String :=
  String.mk (((s.toList.dropWhile Char.isWhitespace).reverse.dropWhile
    Char.isWhitespace).reverse)

/-- Splitting a character list on a (nonempty) separator, Python
`str.split(sep)` style.  `fuel` bounds the number of steps; it is always
instantiated with the length of the input, which suffices because every
step consumes at least one character. -/
def splitCharsAux (sep : List Char) : Nat → List Char → List Char → List (List Char)
  | _, acc, [] => [acc.reverse]
  | 0, acc, cs => [acc.reverse ++ cs]
  | fuel + 1, acc, c :: cs =>
      if sep.isPrefixOf (c :: cs) then
        acc.reverse :: splitCharsAux sep fuel [] ((c :: cs).drop sep.length)
      else
        splitCharsAux sep fuel (c :: acc) cs

/-- Python `s.split(sep)` for a nonempty separator. -/
def pySplit (s sep : String) : List String :=
  (splitCharsAux sep.toList s.toList.length [] s.toList).map String.mk

/-- The effect of a Python list comprehension `[f x for x in l]` in which
`f` may raise: the first exception aborts the whole comprehension. -/
def mapOpt (f : α → Option β) : List α → Option (List β)
  | [] => some []
  | x :: xs => do
      let y ← f x
      let ys ← mapOpt f xs
      some (y :: ys)

/-! ### Data model for the parsed episode page

A `Td` models a `td` element of class `clue_text`: its `id` attribute, its
text, and the texts of its nested `em` elements of class
`correct_response`.  A `TableElement` models the parent element of such a
`td` (holding, in document order, the clue-text `td`s below it).  A `Soup`
models the parsed episode page: the texts of the `category_name` cells and
the parent table elements, whose clue-text `td`s concatenated in order are
exactly the page's `find_all` result for `td.clue_text`. -/

structure Td where
  id : String
  text : String
  emCorrectResponses : List String
deriving DecidableEq

structure TableElement where
  clueTds : List Td
deriving DecidableEq

structure Soup where
  categoryNames : List String
  tableElements : List TableElement
deriving DecidableEq

/-- The point value of a clue: a dollar amount, or the sentinel string
`FINAL JEOPARDY` used for the final-round clue. -/
inductive ClueValue
  | dollars (n : Int)
  | finalJeopardy
deriving DecidableEq

structure ClueRecord where
  clue : String
  answer : String
  category : String
  value : ClueValue
deriving DecidableEq

/-! ### The clue extractor (`format_clue`, `scrape_clues`,
`filter_clue_list` of scraper.py) -/

/-- Embedding of `format_clue`: extract text, point value and category from
one clue table element.  `none` models any uncaught Python exception
(missing sub-element, missing correct response, malformed identifier,
category index out of range), which aborts the whole episode. -/
def format_clue (table_element : TableElement) (categories : List String) :
    Option ClueRecord := do
  let sub_elements := table_element.clueTds
  let clue ← sub_elements.get? 0
  let response ← sub_elements.get? 1
  let answer ← response.emCorrectResponses.get? 0
  let clue_id := clue.id
  if clue_id = "clue_FJ" then
    let category ← pyGet categories (-1)
    some { clue := clue.text, answer := answer, category := category,
           value := ClueValue.finalJeopardy }
  else
    let dj := pyContains clue_id "DJ"
    let id_parts := pySplit clue_id "_"
    let p2 ← id_parts.get? 2
    let p3 ← id_parts.get? 3
    let cat_id0 ← pyInt (pyStrip p2)
    let rowNum ← pyInt p3
    let clue_value : Int := if dj then 2 * (200 * rowNum) else 200 * rowNum
    let cat_id : Int := if dj then cat_id0 + 6 else cat_id0
    let category ← pyGet categories cat_id
    some { clue := clue.text, answer := answer, category := category,
           value := ClueValue.dollars clue_value }

/-- Embedding of `filter_clue_list`: drop clues whose id ends in `_r`. -/
def filter_clue_list (clue_list : List Td) : List Td :=
  clue_list.filter fun item => !(pyLastTwo item.id == "_r")

/-- All clue-text `td`s of the page in document order
(`soup.find_all` for class `clue_text`). -/
def allClueTds (soup : Soup) : List Td :=
  soup.tableElements.flatMap TableElement.clueTds

/-- The clue-text `td`s that survive the `_r` filter of `scrape_clues`,
each paired with its parent table element. -/
def selectedElements (soup : Soup) : List (Td × TableElement) :=
  (soup.tableElements.flatMap fun te => te.clueTds.map fun td => (td, te)).filter
    fun p => !(pyLastTwo p.1.id == "_r")

/-- Embedding of `scrape_clues`: for a parsed game page, the list of all
formatted clues; `none` models an exception escaping from `format_clue`.
(The Python `format_clue` never returns `None`, so the comprehension
filtering out `None` entries is the identity and is not represented.) -/
def scrape_clues (soup : Soup) : Option (List ClueRecord) :=
  let categories := soup.categoryNames
  let table_elements := (selectedElements soup).map Prod.snd
  mapOpt (fun te => format_clue te categories) table_elements

/-! ### The episode ID enumerator (`scrape_ids` of scraper.py)

A `Link` models an `a` element of the season listing page: its visible
text and its `href` target. -/

structure Link where
  text : String
  href : String
deriving DecidableEq

/-- Embedding of `scrape_ids`: keep the links whose text contains
`aired`, take the part of each `href` after `game_id=`, parse it as an
integer, and reverse the resulting list.  `none` models an exception from
a malformed `href`. -/
def scrape_ids (links : List Link) : Option (List Int) := do
  let aired := links.filter fun l => pyContains l.text "aired"
  let game_ids ← mapOpt (fun l => ((pySplit l.href "game_id=").get? 1).bind pyInt) aired
  some game_ids.reverse

/-! ### The batch runner (`scrape_all`, `to_csv`, `__main__` of scraper.py)

The runner's effects (HTTP requests, CSV appends, error-log appends,
crawl-delay sleeps) are modelled as a trace of events.  `Env` packages the
pre-run state of the world: whether the output CSV already exists, its
rows if so, the content of `id_order.json`, and an abstract
`scrape_episode` outcome per game id (`Except`: error = the exception the
fetch or extraction raises, ok = the episode's date and clue list; the
Python `scrape_episode` puts the requested game id itself into the
returned record). -/

/-- One row of the output CSV, as produced by `to_csv`: the clue fields
plus the episode-level `date` and `game_id` columns replicated per row. -/
structure Row where
  clue : String
  answer : String
  category : String
  value : ClueValue
  date : String
  game_id : Int
deriving DecidableEq

/-- A successfully scraped episode: formatted air date and clue list. -/
structure Episode where
  date : String
  clues : List ClueRecord
deriving DecidableEq

/-- The rows `to_csv` appends for one episode: one row per clue, with the
date and game id replicated onto every row. -/
def to_csv_rows (date : String) (gid : Int) (clues : List ClueRecord) : List Row :=
  clues.map fun c =>
    { clue := c.clue, answer := c.answer, category := c.category,
      value := c.value, date := date, game_id := gid }

/-- Pre-run state of the world for one invocation of `scrape_all`. -/
structure Env where
  csvfileExists : Bool
  dataset : List Row
  idOrder : List Int
  fetch : Int → Except String Episode

/-- Observable events of a batch run, in execution order. -/
inductive Ev
  | loadIds
  | truncateErrors
  | httpGet (gid : Int)
  | writeCsv (gid : Int) (rows : List Row)
  | logError (gid : Int) (msg : String)
  | sleepDelay (d : Int)
deriving DecidableEq

/-- Python exceptions that escape `scrape_all` uncaught. -/
inductive PyError
  | valueError (msg : String)
  | fileNotFoundError (msg : String)
deriving DecidableEq

/-- `pandas.unique` on a column: distinct values in first-occurrence
order. -/
def pyUniqueAux (seen : List Int) : List Int → List Int
  | [] => []
  | x :: xs =>
      if seen.contains x then pyUniqueAux seen xs
      else x :: pyUniqueAux (x :: seen) xs

def pyUnique (l : List Int) : List Int := pyUniqueAux [] l

/-- The already-scraped game ids read from the existing dataset
(`data.game_id.unique().tolist()` in `scrape_all`). -/
def doneIds (env : Env) : List Int :=
  pyUnique (env.dataset.map Row.game_id)

/-- The events of one iteration of the loop of `scrape_all`: skip when
resuming and already done; otherwise fetch (one HTTP request), then on
failure append to the error log and continue — note the `continue` skips
the crawl delay — and on success append the rows to the CSV and sleep when
a positive crawl delay is configured. -/
def episodeEvents (env : Env) (crawl_delay : Int) (resume : Bool)
    (done_ids : List Int) (gid : Int) : List Ev :=
  if resume && done_ids.contains gid then []
  else
    match env.fetch gid with
    | Except.error e => [Ev.httpGet gid, Ev.logError gid e]
    | Except.ok ep =>
        [Ev.httpGet gid, Ev.writeCsv gid (to_csv_rows ep.date gid ep.clues)] ++
          (if 0 < crawl_delay then [Ev.sleepDelay crawl_delay] else [])

/-- Embedding of `scrape_all`: the event trace of the run together with
the uncaught exception terminating it, if any.  The `ValueError` when the
output exists without resume, and the `FileNotFoundError` from
`pd.read_csv` when resuming without an existing output, both fire before
the id order is loaded, before the error log is truncated and before any
HTTP request. -/
def scrape_all (env : Env) (crawl_delay : Int) (resume : Bool) :
    List Ev × Option PyError :=
  if env.csvfileExists && !resume then
    ([], some (PyError.valueError "csvfile already exists"))
  else if resume && !env.csvfileExists then
    ([], some (PyError.fileNotFoundError "csvfile"))
  else
    let done_ids := if resume then doneIds env else []
    let ids := env.idOrder.reverse
    ([Ev.loadIds, Ev.truncateErrors] ++
      ids.flatMap (episodeEvents env crawl_delay resume done_ids), none)

/-- The no-argument entry point:
`scrape_all('jeopardy_data.csv', 2, resume=True)`. -/
def main_run (env : Env) : List Ev × Option PyError :=
  scrape_all env 2 true

/-! ### Concrete pages used by the synthetic-page claims -/

/-- A synthetic episode page with one regular-round clue whose identifier
encodes category 2, row 3, together with its adjacent response cell. -/
def c2RegularPage : Soup :=
  { categoryNames :=
      ["cat0", "cat1", "cat2", "cat3", "cat4", "cat5", "cat6", "cat7",
       "cat8", "cat9", "cat10", "cat11", "cat12"],
    tableElements :=
      [⟨[⟨"clue_J_2_3", "clue text", []⟩,
         ⟨"clue_J_2_3_r", "response cell", ["correct response"]⟩]⟩] }

/-- The same synthetic page with the clue moved to the second
(double-value) round: identifier `clue_DJ_2_3`. -/
def c2DoubleRoundPage : Soup :=
  { categoryNames :=
      ["cat0", "cat1", "cat2", "cat3", "cat4", "cat5", "cat6", "cat7",
       "cat8", "cat9", "cat10", "cat11", "cat12"],
    tableElements :=
      [⟨[⟨"clue_DJ_2_3", "clue text", []⟩,
         ⟨"clue_DJ_2_3_r", "response cell", ["correct response"]⟩]⟩] }

/-- A synthetic page whose single table element is the final-round clue
cell with its response. -/
def fjPage : Soup :=
  { categoryNames := ["cat0", "FINAL"],
    tableElements :=
      [⟨[⟨"clue_FJ", "fj clue", []⟩, ⟨"clue_FJ_r", "resp", ["fj answer"]⟩]⟩] }

/-- A synthetic page whose response cell has no `em.correct_response`
element. -/
def missingAnswerPage : Soup :=
  { categoryNames := ["cat0"],
    tableElements := [⟨[⟨"clue_J_0_1", "c", []⟩, ⟨"clue_J_0_1_r", "r", []⟩]⟩] }

/-- The game id an event refers to, when it refers to one. -/
def evGid : Ev → Option Int
  | Ev.httpGet g => some g
  | Ev.writeCsv g _ => some g
  | Ev.logError g _ => some g
  | _ => none

def isSleepEv : Ev → Bool
  | Ev.sleepDelay _ => true
  | _ => false

def isWriteEv : Ev → Bool
  | Ev.writeCsv _ _ => true
  | _ => false

/-- Concrete environment for the resume claim: the dataset of a partial
prior run already holds rows for episode 3, which also appears in the id
order. -/
def c5Env : Env :=
  { csvfileExists := true,
    dataset := [{ clue := "q", answer := "a", category := "c",
                  value := ClueValue.dollars 200, date := "01/01/2024",
                  game_id := 3 }],
    idOrder := [3], fetch := fun _ => Except.error "net" }

/-- Concrete environment in which fetching episode 5 raises. -/
def c7Env : Env :=
  { csvfileExists := false, dataset := [], idOrder := [5],
    fetch := fun _ => Except.error "HTTPError" }

/-- Concrete environment with a single failing episode, used against the
crawl-delay claim. -/
def c8Env : Env :=
  { csvfileExists := false, dataset := [], idOrder := [7],
    fetch := fun _ => Except.error "boom" }

/-- Concrete environment with one successful and one failing episode. -/
def c8OkEnv : Env :=
  { csvfileExists := false, dataset := [], idOrder := [7, 8],
    fetch := fun g =>
      if g = 7 then Except.ok (Episode.mk "01/01/2024" [])
      else Except.error "boom" }

/-- A season listing page with three aired links and two non-aired
links. -/
def fiveLinks : List Link :=
  [⟨"#1, aired 2020-01-01", "showgame.php?game_id=101"⟩,
   ⟨"#2, taped 2020-01-05", "showgame.php?game_id=102"⟩,
   ⟨"#3, aired 2020-01-02", "showgame.php?game_id=103"⟩,
   ⟨"#4, to be determined", "showseason.php?season=1"⟩,
   ⟨"#5, aired 2020-01-03", "showgame.php?game_id=105"⟩]

/-! ### Helper lemmas -/

theorem mapOpt_length (f : α → Option β) :
    ∀ (l : List α) (out : List β), mapOpt f l = some out → out.length = l.length := by
  intro l
  induction l with
  | nil => intro out h; simp [mapOpt] at h; simp [← h]
  | cons x xs ih =>
      intro out h
      simp only [mapOpt, Option.bind_eq_bind] at h
      rcases Option.bind_eq_some.mp h with ⟨y, hy, h2⟩
      rcases Option.bind_eq_some.mp h2 with ⟨ys, hys, h3⟩
      cases h3
      simp [ih ys hys]

theorem mapOpt_mem (f : α → Option β) :
    ∀ (l : List α) (out : List β) (a : α), mapOpt f l = some out → a ∈ l →
      ∃ b, b ∈ out ∧ f a = some b := by
  intro l
  induction l with
  | nil => intro out a _ ha; cases ha
  | cons x xs ih =>
      intro out a h ha
      simp only [mapOpt, Option.bind_eq_bind] at h
      rcases Option.bind_eq_some.mp h with ⟨y, hy, h2⟩
      rcases Option.bind_eq_some.mp h2 with ⟨ys, hys, h3⟩
      cases h3
      rcases List.mem_cons.mp ha with rfl | hmem
      · exact ⟨y, List.mem_cons_self y ys, hy⟩
      · rcases ih ys a hys hmem with ⟨b, hb, hfb⟩
        exact ⟨b, List.mem_cons_of_mem y hb, hfb⟩

theorem mapOpt_none_of_mem (f : α → Option β) :
    ∀ (l : List α) (a : α), a ∈ l → f a = none → mapOpt f l = none := by
  intro l
  induction l with
  | nil => intro a ha; cases ha
  | cons x xs ih =>
      intro a ha hf
      rcases List.mem_cons.mp ha with rfl | hmem
      · simp [mapOpt, hf]
      · simp only [mapOpt, Option.bind_eq_bind]
        cases hfx : f x with
        | none => rfl
        | some y => simp [ih a hmem hf]

theorem pyGet_neg_one (l : List α) : pyGet l (-1) = l.getLast? := by
  cases l with
  | nil => simp [pyGet]
  | cons x xs =>
      simp only [pyGet]
      norm_num [List.getLast?_eq_getElem?, List.get?_eq_getElem?]

theorem contains_iff_mem (l : List Int) (a : Int) : l.contains a = true ↔ a ∈ l := by
  induction l with
  | nil => simp
  | cons x xs ih => simp [List.contains, List.elem_iff]

theorem mem_pyUniqueAux (l : List Int) :
    ∀ (seen : List Int) (a : Int), a ∈ l → ¬ a ∈ seen → a ∈ pyUniqueAux seen l := by
  induction l with
  | nil => intro seen a ha; cases ha
  | cons x xs ih =>
      intro seen a ha hs
      rcases List.mem_cons.mp ha with rfl | hmem
      · have hc : ¬ (seen.contains a = true) :=
          fun hc => hs ((contains_iff_mem seen a).mp hc)
        simp only [pyUniqueAux, if_neg hc]
        exact List.mem_cons_self a _
      · simp only [pyUniqueAux]
        by_cases hc : seen.contains x = true
        · rw [if_pos hc]
          exact ih seen a hmem hs
        · rw [if_neg hc]
          by_cases hax : a = x
          · exact hax ▸ List.mem_cons_self x _
          · refine List.mem_cons_of_mem x (ih (x :: seen) a hmem ?_)
            intro hmem2
            rcases List.mem_cons.mp hmem2 with rfl | h2
            · exact hax rfl
            · exact hs h2

theorem mem_pyUnique (l : List Int) (a : Int) (ha : a ∈ l) : a ∈ pyUnique l :=
  mem_pyUniqueAux l [] a ha (by simp)

theorem mem_doneIds (env : Env) (gid : Int)
    (h : gid ∈ env.dataset.map Row.game_id) : gid ∈ doneIds env :=
  mem_pyUnique _ gid h

theorem format_clue_fj_case (te : TableElement) (categories : List String)
    (clue : Td) (rec : ClueRecord)
    (hclue : te.clueTds.get? 0 = some clue)
    (hfj : clue.id = "clue_FJ")
    (h : format_clue te categories = some rec) :
    rec.value = ClueValue.finalJeopardy ∧ categories.getLast? = some rec.category := by
  cases hl : te.clueTds with
  | nil => rw [hl] at hclue; cases hclue
  | cons a tds =>
      rw [hl, List.get?_cons_zero] at hclue
      cases hclue
      cases tds with
      | nil => rw [format_clue, hl] at h; simp [mapOpt] at h
      | cons b rest =>
          rw [format_clue, hl] at h
          simp only [List.get?_cons_zero, List.get?_cons_succ, Option.bind_eq_bind,
            Option.some_bind] at h
          rcases Option.bind_eq_some.mp h with ⟨ans, hansb, h2⟩
          rw [if_pos hfj] at h2
          rcases Option.bind_eq_some.mp h2 with ⟨catv, hcatv, h3⟩
          cases h3
          exact ⟨rfl, by rw [← pyGet_neg_one]; exact hcatv⟩

theorem selected_map_fst (soup : Soup) :
    (selectedElements soup).map Prod.fst = filter_clue_list (allClueTds soup) := by
  simp only [selectedElements, filter_clue_list, allClueTds]
  have hpred : (fun p : Td × TableElement => !(pyLastTwo p.1.id == "_r")) =
      ((fun td : Td => !(pyLastTwo td.id == "_r")) ∘ Prod.fst) := rfl
  rw [hpred, ← List.filter_map]
  congr 1
  rw [List.map_flatMap]
  congr 1
  funext a
  have hid : (Prod.fst ∘ fun td : Td => (td, a)) = id := rfl
  rw [List.map_map, hid, List.map_id]

/-! ### The claims -/

/-- C1: for a non-final clue cell, `format_clue` reads the round flag
(`DJ` in the identifier), a category index and a row number from the
underscore-separated identifier; writing the row number as zero-based
row index + 1, the value is 200 × (row index + 1), doubled in the second
round, and the category is the entry of the combined category list at the
category index, offset by 6 in the second round. -/
theorem format_clue_decodes_non_final (clue response : Td) (rest : List Td)
    (te : TableElement) (categories : List String) (answer cat : String)
    (c : Int) (r : Nat)
    (hte : te.clueTds = clue :: response :: rest)
    (hans : response.emCorrectResponses.get? 0 = some answer)
    (hnf : ¬ clue.id = "clue_FJ")
    (hc : ((pySplit clue.id "_").get? 2).bind (fun s => pyInt (pyStrip s)) = some c)
    (hr : ((pySplit clue.id "_").get? 3).bind pyInt = some ((r : Int) + 1))
    (hcat : pyGet categories (if pyContains clue.id "DJ" then c + 6 else c) = some cat) :
    format_clue te categories =
      some { clue := clue.text, answer := answer, category := cat,
             value := ClueValue.dollars
               ((if pyContains clue.id "DJ" then 2 else 1) * (200 * ((r : Int) + 1))) } := by
  rcases Option.bind_eq_some.mp hc with ⟨p2, hp2, hc2⟩
  rcases Option.bind_eq_some.mp hr with ⟨p3, hp3, hr2⟩
  rw [List.get?_eq_getElem?] at hans hp2 hp3
  cases hdj : pyContains clue.id "DJ"
  · simp only [hdj, Bool.false_eq_true, if_false] at hcat
    simp [format_clue, hte, hans, hnf, hp2, hp3, hc2, hr2, hdj, hcat]
  · simp only [hdj, if_true] at hcat
    simp [format_clue, hte, hans, hnf, hp2, hp3, hc2, hr2, hdj, hcat]

/-- Witness for C1: the second-round cell `clue_DJ_2_3` decodes to
zero-based row index 2, value 2 × 200 × 3 = 1200, category index
2 + 6 = 8. -/
theorem format_clue_decodes_non_final_witness : format_clue
    (TableElement.mk
      [Td.mk "clue_DJ_2_3" "ct" [], Td.mk "clue_DJ_2_3_r" "rt" ["ans"]])
    ["cat0", "cat1", "cat2", "cat3", "cat4", "cat5", "cat6", "cat7",
     "cat8", "cat9", "cat10", "cat11", "cat12"] =
    some { clue := "ct", answer := "ans", category := "cat8",
           value := ClueValue.dollars 1200 } :=
  format_clue_decodes_non_final
    (Td.mk "clue_DJ_2_3" "ct" []) (Td.mk "clue_DJ_2_3_r" "rt" ["ans"]) []
    _ _ "ans" "cat8" 2 2 rfl rfl (by decide) (by decide) (by decide) (by decide)

/-- C3: whenever extraction of a page succeeds and one of its selected
table elements carries the final-round identifier `clue_FJ`, the output
contains a record for it whose category is the last category of the
combined list and whose value is the sentinel marker, never a numeric
dollar amount. -/
theorem final_clue_sentinel (soup : Soup) (out : List ClueRecord)
    (te : TableElement) (clue : Td)
    (h : scrape_clues soup = some out)
    (hte : te ∈ (selectedElements soup).map Prod.snd)
    (hclue : te.clueTds.get? 0 = some clue)
    (hfj : clue.id = "clue_FJ") :
    ∃ rec, rec ∈ out ∧ rec.value = ClueValue.finalJeopardy ∧
      soup.categoryNames.getLast? = some rec.category ∧
      ∀ n, ¬ rec.value = ClueValue.dollars n := by
  rcases mapOpt_mem (fun t => format_clue t soup.categoryNames)
    ((selectedElements soup).map Prod.snd) out te h hte with ⟨rec, hrec, hf⟩
  rcases format_clue_fj_case te soup.categoryNames clue rec hclue hfj hf with ⟨hv, hcat⟩
  exact ⟨rec, hrec, hv, hcat, fun n hn => by rw [hv] at hn; cases hn⟩

/-- Witness for C3 on the concrete final-round page. -/
theorem final_clue_sentinel_witness :
    ∃ rec, rec ∈ [ClueRecord.mk "fj clue" "fj answer" "FINAL" ClueValue.finalJeopardy] ∧
      rec.value = ClueValue.finalJeopardy ∧
      fjPage.categoryNames.getLast? = some rec.category ∧
      ∀ n, ¬ rec.value = ClueValue.dollars n :=
  final_clue_sentinel fjPage
    [ClueRecord.mk "fj clue" "fj answer" "FINAL" ClueValue.finalJeopardy]
    (TableElement.mk [Td.mk "clue_FJ" "fj clue" [], Td.mk "clue_FJ_r" "resp" ["fj answer"]])
    (Td.mk "clue_FJ" "fj clue" [])
    (by decide) (by decide) (by decide) (by decide)

/-- C4: the cells that drive the extractor's output are exactly the
non-decoy clue cells (ids not ending in `_r`) in page order — the same
list `filter_clue_list` computes — and when extraction succeeds the
output has exactly one record per such cell, so decoys never contribute a
record and no other clue is dropped. -/
theorem decoys_filtered_nothing_else_dropped (soup : Soup) (out : List ClueRecord)
    (h : scrape_clues soup = some out) :
    (selectedElements soup).map Prod.fst = filter_clue_list (allClueTds soup) ∧
    out.length = (filter_clue_list (allClueTds soup)).length := by
  refine ⟨selected_map_fst soup, ?_⟩
  have hlen := mapOpt_length _ _ out h
  rw [List.length_map] at hlen
  rw [hlen, ← selected_map_fst soup, List.length_map]

/-- Witness for C4 on the concrete regular-round page (one decoy cell,
one real clue cell, one output record). -/
theorem decoys_filtered_nothing_else_dropped_witness :
    (selectedElements c2RegularPage).map Prod.fst =
      filter_clue_list (allClueTds c2RegularPage) ∧
    ([ClueRecord.mk "clue text" "correct response" "cat2"
        (ClueValue.dollars 600)]).length =
      (filter_clue_list (allClueTds c2RegularPage)).length :=
  decoys_filtered_nothing_else_dropped c2RegularPage
    [ClueRecord.mk "clue text" "correct response" "cat2" (ClueValue.dollars 600)]
    (by decide)

theorem gid_of_mem_episodeEvents (env : Env) (d : Int) (res : Bool)
    (done : List Int) (g : Int) (ev : Ev)
    (h : ev ∈ episodeEvents env d res done g) :
    evGid ev = some g ∨ evGid ev = none := by
  unfold episodeEvents at h
  by_cases hskip : (res && done.contains g) = true
  · rw [if_pos hskip] at h; cases h
  · rw [if_neg hskip] at h
    cases hf : env.fetch g with
    | error e =>
        rw [hf] at h
        rcases List.mem_cons.mp h with rfl | h
        · exact Or.inl rfl
        · rcases List.mem_singleton.mp h with rfl
          exact Or.inl rfl
    | ok ep =>
        rw [hf] at h
        rcases List.mem_append.mp h with h | h
        · rcases List.mem_cons.mp h with rfl | h
          · exact Or.inl rfl
          · rcases List.mem_singleton.mp h with rfl
            exact Or.inl rfl
        · by_cases hd : (0 < d)
          · rw [if_pos hd] at h
            rcases List.mem_singleton.mp h with rfl
            exact Or.inr rfl
          · rw [if_neg hd] at h; cases h

theorem episodeEvents_skip (env : Env) (d : Int) (done : List Int) (g : Int)
    (h : done.contains g = true) :
    episodeEvents env d true done g = [] := by
  unfold episodeEvents
  rw [if_pos (by rw [Bool.true_and]; exact h)]

theorem httpGet_mem_episodeEvents (env : Env) (d : Int) (res : Bool)
    (done : List Int) (g : Int)
    (hskip : ¬ (res && done.contains g) = true) :
    Ev.httpGet g ∈ episodeEvents env d res done g := by
  unfold episodeEvents
  rw [if_neg hskip]
  cases env.fetch g <;> simp

theorem logError_mem_episodeEvents (env : Env) (d : Int) (res : Bool)
    (done : List Int) (g : Int) (e : String)
    (hskip : ¬ (res && done.contains g) = true)
    (hf : env.fetch g = Except.error e) :
    Ev.logError g e ∈ episodeEvents env d res done g := by
  unfold episodeEvents
  rw [if_neg hskip, hf]
  simp

theorem writeCsv_not_mem_of_error (env : Env) (d : Int) (res : Bool)
    (done : List Int) (g gid : Int) (e : String) (rows : List Row)
    (hf : env.fetch g = Except.error e) :
    ¬ Ev.writeCsv gid rows ∈ episodeEvents env d res done g := by
  unfold episodeEvents
  by_cases hskip : (res && done.contains g) = true
  · rw [if_pos hskip]; simp
  · rw [if_neg hskip, hf]; simp

/-- C5: on a resumed run over an existing dataset, every game id already
present in the dataset's `game_id` column is skipped: the run never
fetches it and never appends rows for it, so no duplicate rows are
written for any such identifier. -/
theorem resume_skips_done_ids (env : Env) (d : Int) (gid : Int)
    (hex : env.csvfileExists = true)
    (hdone : gid ∈ env.dataset.map Row.game_id) :
    (∀ rows, ¬ Ev.writeCsv gid rows ∈ (scrape_all env d true).1) ∧
    ¬ Ev.httpGet gid ∈ (scrape_all env d true).1 := by
  have hcon : (doneIds env).contains gid = true :=
    (contains_iff_mem _ _).mpr (mem_doneIds env gid hdone)
  have htr : (scrape_all env d true).1 =
      [Ev.loadIds, Ev.truncateErrors] ++
        env.idOrder.reverse.flatMap (episodeEvents env d true (doneIds env)) := by
    simp [scrape_all, hex]
  have key : ∀ ev : Ev, evGid ev = some gid → ¬ ev ∈ (scrape_all env d true).1 := by
    intro ev hgid hmem
    rw [htr] at hmem
    rcases List.mem_append.mp hmem with h1 | h2
    · rcases List.mem_cons.mp h1 with rfl | h1
      · simp [evGid] at hgid
      · rcases List.mem_singleton.mp h1 with rfl
        simp [evGid] at hgid
    · rcases List.mem_flatMap.mp h2 with ⟨g, hg, hev⟩
      rcases gid_of_mem_episodeEvents env d true (doneIds env) g ev hev with h | h
      · rw [hgid] at h
        injection h with h
        subst h
        rw [episodeEvents_skip env d (doneIds env) gid hcon] at hev
        cases hev
      · rw [hgid] at h; cases h
  exact ⟨fun rows => key _ rfl, key _ rfl⟩

/-- Witness for C5: episode 3 is in the dataset of `c5Env`, so the
resumed run neither fetches it nor writes rows for it. -/
theorem resume_skips_done_ids_witness :
    ¬ Ev.writeCsv 3 [] ∈ (scrape_all c5Env 0 true).1 ∧
    ¬ Ev.httpGet 3 ∈ (scrape_all c5Env 0 true).1 :=
  ⟨(resume_skips_done_ids c5Env 0 3 rfl (by decide)).1 [],
   (resume_skips_done_ids c5Env 0 3 rfl (by decide)).2⟩

theorem format_clue_none_of_missing_answer (te : TableElement)
    (categories : List String) (resp : Td)
    (h1 : te.clueTds.get? 1 = some resp)
    (h2 : resp.emCorrectResponses = []) :
    format_clue te categories = none := by
  cases hl : te.clueTds with
  | nil => rw [hl] at h1; cases h1
  | cons a tds =>
      cases tds with
      | nil => rw [hl] at h1; simp at h1
      | cons b rest =>
          rw [hl, List.get?_cons_succ, List.get?_cons_zero] at h1
          cases h1
          rw [format_clue, hl]
          simp [h2]

theorem scrape_clues_none_of_missing_answer (soup : Soup) (te : TableElement)
    (resp : Td)
    (hte : te ∈ (selectedElements soup).map Prod.snd)
    (h1 : te.clueTds.get? 1 = some resp)
    (h2 : resp.emCorrectResponses = []) :
    scrape_clues soup = none :=
  mapOpt_none_of_mem (fun t => format_clue t soup.categoryNames)
    ((selectedElements soup).map Prod.snd) te hte
    (format_clue_none_of_missing_answer te soup.categoryNames resp h1 h2)

/-- C7: on a run that is not aborted up front, every processed episode
whose fetch-and-extract step raises gets its identifier and the error
description appended to the error log and no rows written, while every
other non-skipped identifier is still processed; and a missing
correct-response element inside the extractor aborts the whole episode —
`scrape_clues` returns no partial output. -/
theorem per_episode_failure_logged (env : Env) (d : Int) (res : Bool)
    (gid : Int) (e : String)
    (hok : (scrape_all env d res).2 = none)
    (hmem : gid ∈ env.idOrder)
    (hns : res = true → ¬ gid ∈ doneIds env)
    (hf : env.fetch gid = Except.error e) :
    Ev.logError gid e ∈ (scrape_all env d res).1 ∧
    (∀ rows, ¬ Ev.writeCsv gid rows ∈ (scrape_all env d res).1) ∧
    (∀ gid2, gid2 ∈ env.idOrder → (res = true → ¬ gid2 ∈ doneIds env) →
      Ev.httpGet gid2 ∈ (scrape_all env d res).1) ∧
    (∀ (soup : Soup) (te : TableElement) (resp : Td),
      te ∈ (selectedElements soup).map Prod.snd →
      te.clueTds.get? 1 = some resp → resp.emCorrectResponses = [] →
      scrape_clues soup = none) := by
  have hA : ¬ (env.csvfileExists && !res) = true := by
    intro hA
    rw [scrape_all] at hok
    rw [if_pos hA] at hok
    cases hok
  have hB : ¬ (res && !env.csvfileExists) = true := by
    intro hB
    rw [scrape_all] at hok
    rw [if_neg hA, if_pos hB] at hok
    cases hok
  have htr : (scrape_all env d res).1 =
      [Ev.loadIds, Ev.truncateErrors] ++
        env.idOrder.reverse.flatMap
          (episodeEvents env d res (if res = true then doneIds env else [])) := by
    rw [scrape_all]
    rw [if_neg hA, if_neg hB]
  have hskipOf : ∀ g : Int, (res = true → ¬ g ∈ doneIds env) →
      ¬ (res && (if res = true then doneIds env else []).contains g) = true := by
    intro g hg hc
    cases res with
    | false => simp at hc
    | true =>
        rw [Bool.true_and, if_pos rfl] at hc
        exact hg rfl ((contains_iff_mem _ _).mp hc)
  refine ⟨?_, ?_, ?_,
    fun soup te resp a b c => scrape_clues_none_of_missing_answer soup te resp a b c⟩
  · rw [htr]
    refine List.mem_append.mpr (Or.inr ?_)
    refine List.mem_flatMap.mpr ⟨gid, List.mem_reverse.mpr hmem, ?_⟩
    exact logError_mem_episodeEvents env d res _ gid e (hskipOf gid hns) hf
  · intro rows hmemw
    rw [htr] at hmemw
    rcases List.mem_append.mp hmemw with h1 | h2
    · simp at h1
    · rcases List.mem_flatMap.mp h2 with ⟨g, hg, hev⟩
      rcases gid_of_mem_episodeEvents env d res _ g _ hev with h | h
      · simp only [evGid, Option.some.injEq] at h
        subst h
        exact writeCsv_not_mem_of_error env d res _ gid gid e rows hf hev
      · simp [evGid] at h
  · intro gid2 hmem2 hns2
    rw [htr]
    refine List.mem_append.mpr (Or.inr ?_)
    refine List.mem_flatMap.mpr ⟨gid2, List.mem_reverse.mpr hmem2, ?_⟩
    exact httpGet_mem_episodeEvents env d res _ gid2 (hskipOf gid2 hns2)

/-- Witness for C7: in `c7Env` episode 5 fails, is logged, gets no rows,
and in `missingAnswerPage` the absent correct-response element makes
extraction of the whole page fail. -/
theorem per_episode_failure_logged_witness :
    Ev.logError 5 "HTTPError" ∈ (scrape_all c7Env 0 false).1 ∧
    ¬ Ev.writeCsv 5 [] ∈ (scrape_all c7Env 0 false).1 ∧
    Ev.httpGet 5 ∈ (scrape_all c7Env 0 false).1 ∧
    scrape_clues missingAnswerPage = none := by
  have h := per_episode_failure_logged c7Env 0 false 5 "HTTPError" rfl
    (by decide) (by simp) rfl
  exact ⟨h.1, h.2.1 [], h.2.2.1 5 (by decide) (by simp),
    h.2.2.2 missingAnswerPage
      (TableElement.mk [Td.mk "clue_J_0_1" "c" [], Td.mk "clue_J_0_1_r" "r" []])
      (Td.mk "clue_J_0_1_r" "r" []) (by decide) rfl rfl⟩

/-- Counterexample to C8 as stated: with crawl delay 2, episode 7 of
`c8Env` is processed and fails, yet no sleep event occurs — the `continue`
in the exception handler skips the delay, so the runner does not wait
after a failed episode. -/
theorem no_sleep_after_failure :
    (scrape_all c8Env 2 false).1 =
      [Ev.loadIds, Ev.truncateErrors, Ev.httpGet 7, Ev.logError 7 "boom"] ∧
    Ev.logError 7 "boom" ∈ (scrape_all c8Env 2 false).1 ∧
    ¬ Ev.sleepDelay 2 ∈ (scrape_all c8Env 2 false).1 :=
  ⟨by decide, by decide, by decide⟩

theorem episodeEvents_sleep_write (env : Env) (d : Int) (res : Bool)
    (done : List Int) (g : Int) (hd : 0 < d) :
    (episodeEvents env d res done g).countP isSleepEv =
      (episodeEvents env d res done g).countP isWriteEv := by
  unfold episodeEvents
  by_cases hskip : (res && done.contains g) = true
  · rw [if_pos hskip]; rfl
  · rw [if_neg hskip]
    cases env.fetch g with
    | error e => rfl
    | ok ep => rw [if_pos hd]; rfl

/-- C8 (amended): when a positive crawl delay is configured, the run
sleeps exactly once per successfully written episode — the delay follows
each success, and failed or skipped episodes incur no delay. -/
theorem sleep_count_eq_write_count (env : Env) (d : Int) (res : Bool)
    (hd : 0 < d) :
    ((scrape_all env d res).1.countP isSleepEv) =
      ((scrape_all env d res).1.countP isWriteEv) := by
  rw [scrape_all]
  by_cases hA : (env.csvfileExists && !res) = true
  · rw [if_pos hA]; rfl
  · rw [if_neg hA]
    by_cases hB : (res && !env.csvfileExists) = true
    · rw [if_pos hB]; rfl
    · rw [if_neg hB]
      simp only [List.countP_append]
      have h2 : ∀ l : List Int,
          (l.flatMap (episodeEvents env d res
            (if res = true then doneIds env else []))).countP isSleepEv =
          (l.flatMap (episodeEvents env d res
            (if res = true then doneIds env else []))).countP isWriteEv := by
        intro l
        induction l with
        | nil => rfl
        | cons x xs ih =>
            simp only [List.flatMap_cons, List.countP_append, ih]
            rw [episodeEvents_sleep_write env d res _ x hd]
      rw [h2]
      rfl

/-- Witness for C8 (amended) on `c8OkEnv`: one success, one failure,
delay 2. -/
theorem sleep_count_eq_write_count_witness :
    ((scrape_all c8OkEnv 2 false).1.countP isSleepEv) =
      ((scrape_all c8OkEnv 2 false).1.countP isWriteEv) :=
  sleep_count_eq_write_count c8OkEnv 2 false (by decide)

/-- C9: on a season listing page with five links of which exactly three
are aired links carrying well-formed `game_id=` targets, `scrape_ids`
returns exactly those three identifiers in reverse page order. -/
theorem enumerator_three_aired (links : List Link) (l1 l2 l3 : Link)
    (g1 g2 g3 : Int)
    (hlen : links.length = 5)
    (hair : links.filter (fun l => pyContains l.text "aired") = [l1, l2, l3])
    (h1 : ((pySplit l1.href "game_id=").get? 1).bind pyInt = some g1)
    (h2 : ((pySplit l2.href "game_id=").get? 1).bind pyInt = some g2)
    (h3 : ((pySplit l3.href "game_id=").get? 1).bind pyInt = some g3) :
    scrape_ids links = some [g3, g2, g1] := by
  rw [List.get?_eq_getElem?] at h1 h2 h3
  simp only [scrape_ids, hair]
  simp [mapOpt, h1, h2, h3]

/-- Witness for C9 on the concrete five-link page. -/
theorem enumerator_three_aired_witness :
    scrape_ids fiveLinks = some [105, 103, 101] :=
  enumerator_three_aired fiveLinks
    ⟨"#1, aired 2020-01-01", "showgame.php?game_id=101"⟩
    ⟨"#3, aired 2020-01-02", "showgame.php?game_id=103"⟩
    ⟨"#5, aired 2020-01-03", "showgame.php?game_id=105"⟩
    101 103 105 rfl (by decide) (by decide) (by decide) (by decide)

/-- C2: on a synthetic episode page containing one regular-round clue
whose identifier encodes category 2 and row 3, the extracted value is 600
(and the category is the one at index 2); at the same coordinates in the
second round the extracted value is 1200 (category index 2 + 6 = 8). -/
theorem synthetic_values_600_1200 :
    scrape_clues c2RegularPage =
      some [{ clue := "clue text", answer := "correct response",
              category := "cat2", value := ClueValue.dollars 600 }] ∧
    scrape_clues c2DoubleRoundPage =
      some [{ clue := "clue text", answer := "correct response",
              category := "cat8", value := ClueValue.dollars 1200 }] :=
  ⟨by decide, by decide⟩

/-- C6: when the output file already exists and resume mode is disabled,
`scrape_all` raises `ValueError` immediately: the trace is empty, so in
particular no HTTP request is issued and nothing is written. -/
theorem abort_when_output_exists (env : Env) (d : Int)
    (hex : env.csvfileExists = true) :
    scrape_all env d false = ([], some (PyError.valueError "csvfile already exists")) ∧
    (∀ gid, ¬ Ev.httpGet gid ∈ (scrape_all env d false).1) ∧
    (∀ gid rows, ¬ Ev.writeCsv gid rows ∈ (scrape_all env d false).1) := by
  refine ⟨by simp [scrape_all, hex], ?_, ?_⟩ <;> simp [scrape_all, hex]

/-- Witness for C6 at a concrete environment. -/
theorem abort_when_output_exists_witness :
    scrape_all { csvfileExists := true, dataset := [], idOrder := [1, 2],
                 fetch := fun _ => Except.error "net" } 0 false =
      ([], some (PyError.valueError "csvfile already exists")) :=
  (abort_when_output_exists
    { csvfileExists := true, dataset := [], idOrder := [1, 2],
      fetch := fun _ => Except.error "net" } 0 rfl).1

/-- C10: invoking `scrape_all` with resume enabled while the output file
does not exist fails in `pd.read_csv` (`FileNotFoundError`): the trace is
empty, so the id order is never loaded, the error log is never truncated
and no HTTP request is issued; and since the no-argument entry point
hard-codes resume mode on, a first-ever run through it fails the same
way. -/
theorem resume_missing_dataset_aborts (env : Env) (d : Int)
    (hne : env.csvfileExists = false) :
    scrape_all env d true = ([], some (PyError.fileNotFoundError "csvfile")) ∧
    ¬ Ev.loadIds ∈ (scrape_all env d true).1 ∧
    ¬ Ev.truncateErrors ∈ (scrape_all env d true).1 ∧
    (∀ gid, ¬ Ev.httpGet gid ∈ (scrape_all env d true).1) ∧
    main_run env = ([], some (PyError.fileNotFoundError "csvfile")) := by
  refine ⟨by simp [scrape_all, hne], ?_, ?_, ?_, by simp [main_run, scrape_all, hne]⟩ <;>
    simp [scrape_all, hne]

/-- Witness for C10 at a concrete environment. -/
theorem resume_missing_dataset_aborts_witness :
    main_run { csvfileExists := false, dataset := [], idOrder := [1, 2],
               fetch := fun _ => Except.error "net" } =
      ([], some (PyError.fileNotFoundError "csvfile")) :=
  (resume_missing_dataset_aborts
    { csvfileExists := false, dataset := [], idOrder := [1, 2],
      fetch := fun _ => Except.error "net" } 2 rfl).2.2.2.2

end Scraper
